import Mathlib

set_option maxRecDepth 4096

/-!
Verification of the binary-operator parsing layer of the `pijama` front end
(`src/parser/bin_op.rs`).  The five tier recognizers `bin_op_1` … `bin_op_5`
are embedded below together with the `nom` combinators they are built from
(`tag`, `char`, `space0`, `alt`, `map`, `not`, `peek`, `terminated`) and the
repository's helper combinators (`surrounded`, `with_context`, `log_success`).
-/

/-- Modelled from the spec: the Position Span (the `pijama_ast::Span` /
`nom_locate` wrapper, not included under `src/`): an immutable view over the
remaining source text together with an offset coordinate. -/
structure Span where
  text : List Char
  offset : Nat
deriving DecidableEq, Repr

/-- Modelled from the spec: the Parse Error (the error type behind the
repository's `IResult`, not included under `src/`): a failure position plus an
ordered stack of human-readable context labels, outermost first. -/
structure ParseError where
  pos : Nat
  contexts : List String
deriving DecidableEq, Repr

/-- The result type of every operator-tier parser (nom's `IResult` as
instantiated by the repository): success carries the remaining span and the
recognized value, failure carries a position-tagged error. -/
inductive IResult (α : Type) where
  | ok (rem : Span) (val : α)
  | error (e : ParseError)
deriving DecidableEq, Repr

/-- Modelled from the spec: the Operator tag type (`pijama_ast::BinOp`, not
included under `src/`): a closed set of tags, one per recognizable binary
operator, exactly the tags used by `bin_op_1` … `bin_op_5`. -/
inductive BinOp where
  | And | Or
  | Lte | Gte | Lt | Gt | Eq | Neq
  | BitAnd | BitOr | BitXor | Shr | Shl
  | Add | Sub
  | Mul | Div | Rem
deriving DecidableEq, Repr, Fintype

/-- A character is horizontal whitespace (nom's `space0` recognizes spaces and
tabs). -/
def isHSpace (c : Char) : Bool := c = ' ' || c = '\t'

/-- nom's `bytes::complete::tag`: match the exact character sequence `t` at the
start of the input, consuming it; otherwise fail at the input position without
consuming anything. -/
def tag (t : List Char) (input : Span) : IResult (List Char) :=
  if input.text.take t.length = t then
    .ok ⟨input.text.drop t.length, input.offset + t.length⟩ t
  else
    .error ⟨input.offset, []⟩

/-- nom's `character::complete::char`: match exactly the character `c`. -/
def charP (c : Char) (input : Span) : IResult Char :=
  match input.text with
  | x :: rest =>
    if x = c then .ok ⟨rest, input.offset + 1⟩ c else .error ⟨input.offset, []⟩
  | [] => .error ⟨input.offset, []⟩

/-- nom's `character::complete::space0`: consume zero or more spaces and tabs;
never fails. -/
def space0 (input : Span) : IResult (List Char) :=
  .ok ⟨input.text.dropWhile isHSpace,
       input.offset + (input.text.takeWhile isHSpace).length⟩
    (input.text.takeWhile isHSpace)

/-- nom's `combinator::map`: apply `f` to the value of a successful parse. -/
def mapP (p : Span → IResult α) (f : α → β) (input : Span) : IResult β :=
  match p input with
  | .ok rem v => .ok rem (f v)
  | .error e => .error e

/-- nom's `combinator::not`: succeed (consuming nothing) exactly when the inner
parser fails; fail at the input position when it succeeds. -/
def notP (p : Span → IResult α) (input : Span) : IResult Unit :=
  match p input with
  | .ok _ _ => .error ⟨input.offset, []⟩
  | .error _ => .ok input ()

/-- nom's `combinator::peek`: run the inner parser but return the original
input span on success (zero-width lookahead). -/
def peekP (p : Span → IResult α) (input : Span) : IResult α :=
  match p input with
  | .ok _ v => .ok input v
  | .error e => .error e

/-- nom's `sequence::terminated`: run `p` then `q`, keeping `p`'s value. -/
def terminatedP (p : Span → IResult α) (q : Span → IResult β) (input : Span) :
    IResult α :=
  match p input with
  | .ok rem v =>
    match q rem with
    | .ok rem2 _ => .ok rem2 v
    | .error e => .error e
  | .error e => .error e

/-- nom's `branch::alt`: try the parsers in order; the first success wins, and
when every alternative fails the error of the last alternative is returned. -/
def altP : List (Span → IResult α) → Span → IResult α
  | [], input => .error ⟨input.offset, []⟩
  | [p], input => p input
  | p :: q :: ps, input =>
    match p input with
    | .ok rem v => .ok rem v
    | .error _ => altP (q :: ps) input

/-- Modelled from the spec: the Context Wrapper
(`crate::parser::helpers::with_context`, not included under `src/`): on failure
attach a fixed descriptive label to the error without discarding the original
failure position; transparent on success. -/
def with_context (label : String) (p : Span → IResult α) (input : Span) :
    IResult α :=
  match p input with
  | .ok rem v => .ok rem v
  | .error e => .error ⟨e.pos, label :: e.contexts⟩

/-- Modelled from the spec: the Success Observer
(`crate::parser::helpers::log_success`, not included under `src/`), made
observable: run the parser and additionally return `some` observation (the
observer applied to the recognized value and its position) exactly when the
parser succeeds, `none` on failure. -/
def log_obs (p : Span → IResult α) (f : α → Nat → β) (input : Span) :
    IResult α × Option β :=
  match p input with
  | .ok rem v => (.ok rem v, some (f v input.offset))
  | .error e => (.error e, none)

/-- Modelled from the spec: the Success Observer hook
(`crate::parser::helpers::log_success`, not included under `src/`): invoke the
observer on success only; the parse result itself is returned unchanged. -/
def log_success (p : Span → IResult α) (f : α → Nat → β) (input : Span) :
    IResult α :=
  (log_obs p f input).1

/-- Modelled from the spec: the Whitespace Envelope
(`crate::parser::helpers::surrounded`, not included under `src/`): discard the
delimiter (zero or more horizontal whitespace characters) before attempting the
content match, and again after a successful match. -/
def surrounded (content : Span → IResult α) (delim : Span → IResult β)
    (input : Span) : IResult α :=
  match delim input with
  | .ok rem1 _ =>
    match content rem1 with
    | .ok rem2 v =>
      match delim rem2 with
      | .ok rem3 _ => .ok rem3 v
      | .error e => .error e
    | .error e => .error e
  | .error e => .error e

/-- The ordered candidate list of `bin_op_1` (src/parser/bin_op.rs:38). -/
def bin_op_1_alt : Span → IResult BinOp :=
  altP [mapP (tag ['&', '&']) (fun _ => BinOp.And),
        mapP (tag ['|', '|']) (fun _ => BinOp.Or)]

/-- Parser for the binary operators with precedence level 1 (`&&`, `||`),
src/parser/bin_op.rs:33-44. -/
def bin_op_1 (input : Span) : IResult BinOp :=
  surrounded
    (with_context "Expected logical operator (&&, ||)"
      (log_success bin_op_1_alt (fun _ _ => ())))
    space0 input

/-- The ordered candidate list of `bin_op_2` (src/parser/bin_op.rs:59-66). -/
def bin_op_2_alt : Span → IResult BinOp :=
  altP [mapP (tag ['<', '=']) (fun _ => BinOp.Lte),
        mapP (tag ['>', '=']) (fun _ => BinOp.Gte),
        mapP (terminatedP (charP '<') (peekP (notP (charP '<'))))
          (fun _ => BinOp.Lt),
        mapP (terminatedP (charP '>') (peekP (notP (charP '>'))))
          (fun _ => BinOp.Gt),
        mapP (tag ['=', '=']) (fun _ => BinOp.Eq),
        mapP (tag ['!', '=']) (fun _ => BinOp.Neq)]

/-- Parser for the binary operators with precedence level 2 (`<=`, `>=`, `<`,
`>`, `==`, `!=`), src/parser/bin_op.rs:54-72. -/
def bin_op_2 (input : Span) : IResult BinOp :=
  surrounded
    (with_context "Expected comparision operator (<=, >=, <, >, ==, !=)"
      (log_success bin_op_2_alt (fun _ _ => ())))
    space0 input

/-- The ordered candidate list of `bin_op_3` (src/parser/bin_op.rs:87-93). -/
def bin_op_3_alt : Span → IResult BinOp :=
  altP [mapP (terminatedP (charP '&') (peekP (notP (charP '&'))))
          (fun _ => BinOp.BitAnd),
        mapP (terminatedP (charP '|') (peekP (notP (charP '|'))))
          (fun _ => BinOp.BitOr),
        mapP (charP '^') (fun _ => BinOp.BitXor),
        mapP (tag ['>', '>']) (fun _ => BinOp.Shr),
        mapP (tag ['<', '<']) (fun _ => BinOp.Shl)]

/-- Parser for the binary operators with precedence level 3 (`&`, `|`, `^`,
`>>`, `<<`), src/parser/bin_op.rs:82-99. -/
def bin_op_3 (input : Span) : IResult BinOp :=
  surrounded
    (with_context "Expected binary operator (&, |, ^, <<, >>)"
      (log_success bin_op_3_alt (fun _ _ => ())))
    space0 input

/-- The ordered candidate list of `bin_op_4` (src/parser/bin_op.rs:111). -/
def bin_op_4_alt : Span → IResult BinOp :=
  altP [mapP (charP '+') (fun _ => BinOp.Add),
        mapP (charP '-') (fun _ => BinOp.Sub)]

/-- Parser for the binary operators with precedence level 4 (`+`, `-`),
src/parser/bin_op.rs:106-117. -/
def bin_op_4 (input : Span) : IResult BinOp :=
  surrounded
    (with_context "Expected binary operator (+, -)"
      (log_success bin_op_4_alt (fun _ _ => ())))
    space0 input

/-- The ordered candidate list of `bin_op_5` (src/parser/bin_op.rs:129-133). -/
def bin_op_5_alt : Span → IResult BinOp :=
  altP [mapP (charP '*') (fun _ => BinOp.Mul),
        mapP (charP '/') (fun _ => BinOp.Div),
        mapP (charP '%') (fun _ => BinOp.Rem)]

/-- Parser for the binary operators with precedence level 5 (`*`, `/`, `%`),
src/parser/bin_op.rs:124-139. -/
def bin_op_5 (input : Span) : IResult BinOp :=
  surrounded
    (with_context "Expected binary operator (*, /, %)"
      (log_success bin_op_5_alt (fun _ _ => ())))
    space0 input

/-- The span from which the caller continues after a parse attempt: the
remaining span on success, the caller's own (unchanged) input span on failure —
nom failures carry no span, so a failing call hands the original input back. -/
def resume (input : Span) : IResult α → Span
  | .ok rem _ => rem
  | .error _ => input

/-- `true` exactly on a successful parse result. -/
def isOkB : IResult α → Bool
  | .ok _ _ => true
  | .error _ => false

/-- The first character of the list, when there is one, is horizontal
whitespace. -/
def startsHSpace : List Char → Bool
  | [] => false
  | c :: _ => isHSpace c

/-- `bin_op_1` with the success observer omitted. -/
def bin_op_1_noobs (input : Span) : IResult BinOp :=
  surrounded (with_context "Expected logical operator (&&, ||)" bin_op_1_alt)
    space0 input

/-- `bin_op_2` with the success observer omitted. -/
def bin_op_2_noobs (input : Span) : IResult BinOp :=
  surrounded
    (with_context "Expected comparision operator (<=, >=, <, >, ==, !=)"
      bin_op_2_alt)
    space0 input

/-- `bin_op_3` with the success observer omitted. -/
def bin_op_3_noobs (input : Span) : IResult BinOp :=
  surrounded
    (with_context "Expected binary operator (&, |, ^, <<, >>)" bin_op_3_alt)
    space0 input

/-- `bin_op_4` with the success observer omitted. -/
def bin_op_4_noobs (input : Span) : IResult BinOp :=
  surrounded (with_context "Expected binary operator (+, -)" bin_op_4_alt)
    space0 input

/-- `bin_op_5` with the success observer omitted. -/
def bin_op_5_noobs (input : Span) : IResult BinOp :=
  surrounded (with_context "Expected binary operator (*, /, %)" bin_op_5_alt)
    space0 input


/-- Tier-1 operator tags (the candidate table of `bin_op_1`). -/
def tier1 : List BinOp := [.And, .Or]

/-- Tier-2 operator tags (the candidate table of `bin_op_2`). -/
def tier2 : List BinOp := [.Lte, .Gte, .Lt, .Gt, .Eq, .Neq]

/-- Tier-3 operator tags (the candidate table of `bin_op_3`). -/
def tier3 : List BinOp := [.BitAnd, .BitOr, .BitXor, .Shr, .Shl]

/-- Tier-4 operator tags (the candidate table of `bin_op_4`). -/
def tier4 : List BinOp := [.Add, .Sub]

/-- Tier-5 operator tags (the candidate table of `bin_op_5`). -/
def tier5 : List BinOp := [.Mul, .Div, .Rem]

/-- The five candidate tables, one per tier recognizer. -/
def tiers : List (List BinOp) := [tier1, tier2, tier3, tier4, tier5]

lemma takeWhile_rep_append (m : Nat) (rest : List Char)
    (h : startsHSpace rest = false) :
    (List.replicate m ' ' ++ rest).takeWhile isHSpace = List.replicate m ' ' := by
  induction m with
  | zero =>
    cases rest with
    | nil => rfl
    | cons c cs =>
      simp only [startsHSpace] at h
      simp [List.takeWhile_cons, h]
  | succ k ih =>
    simp [List.replicate_succ, List.takeWhile_cons, isHSpace, ih]

lemma dropWhile_rep_append (m : Nat) (rest : List Char)
    (h : startsHSpace rest = false) :
    (List.replicate m ' ' ++ rest).dropWhile isHSpace = rest := by
  induction m with
  | zero =>
    cases rest with
    | nil => rfl
    | cons c cs =>
      simp only [startsHSpace] at h
      simp [List.dropWhile_cons, h]
  | succ k ih =>
    simp [List.replicate_succ, List.dropWhile_cons, isHSpace, ih]

lemma space0_rep_append (m off : Nat) (rest : List Char)
    (h : startsHSpace rest = false) :
    space0 ⟨List.replicate m ' ' ++ rest, off⟩ =
      .ok ⟨rest, off + m⟩ (List.replicate m ' ') := by
  simp [space0, takeWhile_rep_append m rest h, dropWhile_rep_append m rest h]

lemma space0_rep (n off : Nat) :
    space0 ⟨List.replicate n ' ', off⟩ = .ok ⟨[], off + n⟩ (List.replicate n ' ') := by
  have := space0_rep_append n off [] rfl
  simpa using this

lemma tag_ok (t rest : List Char) (off : Nat) :
    tag t ⟨t ++ rest, off⟩ = .ok ⟨rest, off + t.length⟩ t := by
  simp [tag, List.take_left, List.drop_left]

lemma tag_cons_fail (c : Char) (ts : List Char) (x : Char) (xs : List Char)
    (off : Nat) (h : x ≠ c) :
    tag (c :: ts) ⟨x :: xs, off⟩ = .error ⟨off, []⟩ := by
  simp [tag, List.take_succ_cons, h]

lemma tag2_snd_fail (a b : Char) (xs : List Char) (off : Nat)
    (h : xs.take 1 ≠ [b]) :
    tag [a, b] ⟨a :: xs, off⟩ = .error ⟨off, []⟩ := by
  simp [tag, List.take_succ_cons, h]

lemma rep_take1_ne (n : Nat) (b : Char) (hb : b ≠ ' ') :
    (List.replicate n ' ').take 1 ≠ [b] := by
  cases n with
  | zero => simp
  | succ k =>
    simp [List.replicate_succ, List.take_succ_cons]
    exact fun h => hb h.symm

lemma charP_cons_ok (c : Char) (xs : List Char) (off : Nat) :
    charP c ⟨c :: xs, off⟩ = .ok ⟨xs, off + 1⟩ c := by
  simp [charP]

lemma charP_cons_fail (c x : Char) (xs : List Char) (off : Nat) (h : x ≠ c) :
    charP c ⟨x :: xs, off⟩ = .error ⟨off, []⟩ := by
  simp [charP, h]

lemma charP_nil (c : Char) (off : Nat) :
    charP c ⟨[], off⟩ = .error ⟨off, []⟩ := rfl

lemma charP_rep (c : Char) (hc : c ≠ ' ') (n off : Nat) :
    charP c ⟨List.replicate n ' ', off⟩ = .error ⟨off, []⟩ := by
  cases n with
  | zero => rfl
  | succ k =>
    simp only [List.replicate_succ]
    exact charP_cons_fail c ' ' _ off (fun h => hc h.symm)

lemma tag_nil_fail (c : Char) (ts : List Char) (off : Nat) :
    tag (c :: ts) ⟨[], off⟩ = .error ⟨off, []⟩ := by
  simp [tag]

lemma startsHSpace_append (c : Char) (s t : List Char) :
    startsHSpace ((c :: s) ++ t) = isHSpace c := rfl

/-- A fully successful whitespace-padded tier parse, assuming the candidate
list succeeds on the token followed by the trailing spaces. -/
lemma tier_spaces (p : Span → IResult BinOp) (label : String) (c : Char)
    (s : List Char) (op : BinOp) (hs : isHSpace c = false)
    (hp : ∀ n q, p ⟨(c :: s) ++ List.replicate n ' ', q⟩ =
        .ok ⟨List.replicate n ' ', q + (c :: s).length⟩ op)
    (m n off : Nat) :
    surrounded (with_context label (log_success p (fun _ _ => ()))) space0
        ⟨List.replicate m ' ' ++ ((c :: s) ++ List.replicate n ' '), off⟩ =
      .ok ⟨[], off + m + (c :: s).length + n⟩ op := by
  have h0 := space0_rep_append m off ((c :: s) ++ List.replicate n ' ')
    (by simpa [startsHSpace_append] using hs)
  have hp2 := hp n (off + m)
  simp only [List.cons_append, List.length_cons] at h0 hp2 ⊢
  simp [surrounded, with_context, log_success, log_obs, h0, hp2, space0_rep]

lemma inner_and (n q : Nat) :
    bin_op_1_alt ⟨['&','&'] ++ List.replicate n ' ', q⟩ =
      .ok ⟨List.replicate n ' ', q + 2⟩ BinOp.And := by
  have h1 := tag_ok ['&','&'] (List.replicate n ' ') q
  simp at h1
  simp [bin_op_1_alt, altP, mapP, h1]

lemma inner_or (n q : Nat) :
    bin_op_1_alt ⟨['|','|'] ++ List.replicate n ' ', q⟩ =
      .ok ⟨List.replicate n ' ', q + 2⟩ BinOp.Or := by
  have h1 := tag_cons_fail '&' ['&'] '|' ('|' :: List.replicate n ' ') q (by decide)
  have h2 := tag_ok ['|','|'] (List.replicate n ' ') q
  simp at h2
  simp [bin_op_1_alt, altP, mapP, h1, h2]

lemma inner_lte (n q : Nat) :
    bin_op_2_alt ⟨['<','='] ++ List.replicate n ' ', q⟩ =
      .ok ⟨List.replicate n ' ', q + 2⟩ BinOp.Lte := by
  have h1 := tag_ok ['<','='] (List.replicate n ' ') q
  simp at h1
  simp [bin_op_2_alt, altP, mapP, h1]

lemma inner_gte (n q : Nat) :
    bin_op_2_alt ⟨['>','='] ++ List.replicate n ' ', q⟩ =
      .ok ⟨List.replicate n ' ', q + 2⟩ BinOp.Gte := by
  have h1 := tag_cons_fail '<' ['='] '>' ('=' :: List.replicate n ' ') q (by decide)
  have h2 := tag_ok ['>','='] (List.replicate n ' ') q
  simp at h2
  simp [bin_op_2_alt, altP, mapP, h1, h2]

lemma inner_lt (n q : Nat) :
    bin_op_2_alt ⟨['<'] ++ List.replicate n ' ', q⟩ =
      .ok ⟨List.replicate n ' ', q + 1⟩ BinOp.Lt := by
  have h1 := tag2_snd_fail '<' '=' (List.replicate n ' ') q (rep_take1_ne n '=' (by decide))
  have h2 := tag_cons_fail '>' ['='] '<' (List.replicate n ' ') q (by decide)
  have h3 := charP_cons_ok '<' (List.replicate n ' ') q
  have h4 := charP_rep '<' (by decide) n (q + 1)
  simp [bin_op_2_alt, altP, mapP, terminatedP, peekP, notP, h1, h2, h3, h4]

lemma inner_gt (n q : Nat) :
    bin_op_2_alt ⟨['>'] ++ List.replicate n ' ', q⟩ =
      .ok ⟨List.replicate n ' ', q + 1⟩ BinOp.Gt := by
  have h1 := tag_cons_fail '<' ['='] '>' (List.replicate n ' ') q (by decide)
  have h2 := tag2_snd_fail '>' '=' (List.replicate n ' ') q (rep_take1_ne n '=' (by decide))
  have h3 := charP_cons_fail '<' '>' (List.replicate n ' ') q (by decide)
  have h4 := charP_cons_ok '>' (List.replicate n ' ') q
  have h5 := charP_rep '>' (by decide) n (q + 1)
  simp [bin_op_2_alt, altP, mapP, terminatedP, peekP, notP, h1, h2, h3, h4, h5]

lemma inner_eq (n q : Nat) :
    bin_op_2_alt ⟨['=','='] ++ List.replicate n ' ', q⟩ =
      .ok ⟨List.replicate n ' ', q + 2⟩ BinOp.Eq := by
  have h1 := tag_cons_fail '<' ['='] '=' ('=' :: List.replicate n ' ') q (by decide)
  have h2 := tag_cons_fail '>' ['='] '=' ('=' :: List.replicate n ' ') q (by decide)
  have h3 := charP_cons_fail '<' '=' ('=' :: List.replicate n ' ') q (by decide)
  have h4 := charP_cons_fail '>' '=' ('=' :: List.replicate n ' ') q (by decide)
  have h5 := tag_ok ['=','='] (List.replicate n ' ') q
  simp at h5
  simp [bin_op_2_alt, altP, mapP, terminatedP, peekP, notP, h1, h2, h3, h4, h5]

lemma inner_neq (n q : Nat) :
    bin_op_2_alt ⟨['!','='] ++ List.replicate n ' ', q⟩ =
      .ok ⟨List.replicate n ' ', q + 2⟩ BinOp.Neq := by
  have h1 := tag_cons_fail '<' ['='] '!' ('=' :: List.replicate n ' ') q (by decide)
  have h2 := tag_cons_fail '>' ['='] '!' ('=' :: List.replicate n ' ') q (by decide)
  have h3 := charP_cons_fail '<' '!' ('=' :: List.replicate n ' ') q (by decide)
  have h4 := charP_cons_fail '>' '!' ('=' :: List.replicate n ' ') q (by decide)
  have h5 := tag_cons_fail '=' ['='] '!' ('=' :: List.replicate n ' ') q (by decide)
  have h6 := tag_ok ['!','='] (List.replicate n ' ') q
  simp at h6
  simp [bin_op_2_alt, altP, mapP, terminatedP, peekP, notP, h1, h2, h3, h4, h5, h6]

lemma inner_bitand (n q : Nat) :
    bin_op_3_alt ⟨['&'] ++ List.replicate n ' ', q⟩ =
      .ok ⟨List.replicate n ' ', q + 1⟩ BinOp.BitAnd := by
  have h1 := charP_cons_ok '&' (List.replicate n ' ') q
  have h2 := charP_rep '&' (by decide) n (q + 1)
  simp [bin_op_3_alt, altP, mapP, terminatedP, peekP, notP, h1, h2]

lemma inner_bitor (n q : Nat) :
    bin_op_3_alt ⟨['|'] ++ List.replicate n ' ', q⟩ =
      .ok ⟨List.replicate n ' ', q + 1⟩ BinOp.BitOr := by
  have h1 := charP_cons_fail '&' '|' (List.replicate n ' ') q (by decide)
  have h2 := charP_cons_ok '|' (List.replicate n ' ') q
  have h3 := charP_rep '|' (by decide) n (q + 1)
  simp [bin_op_3_alt, altP, mapP, terminatedP, peekP, notP, h1, h2, h3]

lemma inner_bitxor (n q : Nat) :
    bin_op_3_alt ⟨['^'] ++ List.replicate n ' ', q⟩ =
      .ok ⟨List.replicate n ' ', q + 1⟩ BinOp.BitXor := by
  have h1 := charP_cons_fail '&' '^' (List.replicate n ' ') q (by decide)
  have h2 := charP_cons_fail '|' '^' (List.replicate n ' ') q (by decide)
  have h3 := charP_cons_ok '^' (List.replicate n ' ') q
  simp [bin_op_3_alt, altP, mapP, terminatedP, peekP, notP, h1, h2, h3]

lemma inner_shr (n q : Nat) :
    bin_op_3_alt ⟨['>','>'] ++ List.replicate n ' ', q⟩ =
      .ok ⟨List.replicate n ' ', q + 2⟩ BinOp.Shr := by
  have h1 := charP_cons_fail '&' '>' ('>' :: List.replicate n ' ') q (by decide)
  have h2 := charP_cons_fail '|' '>' ('>' :: List.replicate n ' ') q (by decide)
  have h3 := charP_cons_fail '^' '>' ('>' :: List.replicate n ' ') q (by decide)
  have h4 := tag_ok ['>','>'] (List.replicate n ' ') q
  simp at h4
  simp [bin_op_3_alt, altP, mapP, terminatedP, peekP, notP, h1, h2, h3, h4]

lemma inner_shl (n q : Nat) :
    bin_op_3_alt ⟨['<','<'] ++ List.replicate n ' ', q⟩ =
      .ok ⟨List.replicate n ' ', q + 2⟩ BinOp.Shl := by
  have h1 := charP_cons_fail '&' '<' ('<' :: List.replicate n ' ') q (by decide)
  have h2 := charP_cons_fail '|' '<' ('<' :: List.replicate n ' ') q (by decide)
  have h3 := charP_cons_fail '^' '<' ('<' :: List.replicate n ' ') q (by decide)
  have h4 := tag_cons_fail '>' ['>'] '<' ('<' :: List.replicate n ' ') q (by decide)
  have h5 := tag_ok ['<','<'] (List.replicate n ' ') q
  simp at h5
  simp [bin_op_3_alt, altP, mapP, terminatedP, peekP, notP, h1, h2, h3, h4, h5]

lemma inner_add (n q : Nat) :
    bin_op_4_alt ⟨['+'] ++ List.replicate n ' ', q⟩ =
      .ok ⟨List.replicate n ' ', q + 1⟩ BinOp.Add := by
  have h1 := charP_cons_ok '+' (List.replicate n ' ') q
  simp [bin_op_4_alt, altP, mapP, h1]

lemma inner_sub (n q : Nat) :
    bin_op_4_alt ⟨['-'] ++ List.replicate n ' ', q⟩ =
      .ok ⟨List.replicate n ' ', q + 1⟩ BinOp.Sub := by
  have h1 := charP_cons_fail '+' '-' (List.replicate n ' ') q (by decide)
  have h2 := charP_cons_ok '-' (List.replicate n ' ') q
  simp [bin_op_4_alt, altP, mapP, h1, h2]

lemma inner_mul (n q : Nat) :
    bin_op_5_alt ⟨['*'] ++ List.replicate n ' ', q⟩ =
      .ok ⟨List.replicate n ' ', q + 1⟩ BinOp.Mul := by
  have h1 := charP_cons_ok '*' (List.replicate n ' ') q
  simp [bin_op_5_alt, altP, mapP, h1]

lemma inner_div (n q : Nat) :
    bin_op_5_alt ⟨['/'] ++ List.replicate n ' ', q⟩ =
      .ok ⟨List.replicate n ' ', q + 1⟩ BinOp.Div := by
  have h1 := charP_cons_fail '*' '/' (List.replicate n ' ') q (by decide)
  have h2 := charP_cons_ok '/' (List.replicate n ' ') q
  simp [bin_op_5_alt, altP, mapP, h1, h2]

lemma inner_rem (n q : Nat) :
    bin_op_5_alt ⟨['%'] ++ List.replicate n ' ', q⟩ =
      .ok ⟨List.replicate n ' ', q + 1⟩ BinOp.Rem := by
  have h1 := charP_cons_fail '*' '%' (List.replicate n ' ') q (by decide)
  have h2 := charP_cons_fail '/' '%' (List.replicate n ' ') q (by decide)
  have h3 := charP_cons_ok '%' (List.replicate n ' ') q
  simp [bin_op_5_alt, altP, mapP, h1, h2, h3]

/-- C1: for every tier and every candidate spelling in its table, input
consisting of exactly the spelling surrounded by arbitrary runs of spaces is
recognized: the parse succeeds, returns the mapped operator tag, and consumes
the spelling together with all surrounding whitespace. -/
theorem claimC1 :
    (∀ m n off, bin_op_1 ⟨List.replicate m ' ' ++ (['&','&'] ++ List.replicate n ' '), off⟩ =
      .ok ⟨[], off + m + 2 + n⟩ BinOp.And) ∧
    (∀ m n off, bin_op_1 ⟨List.replicate m ' ' ++ (['|','|'] ++ List.replicate n ' '), off⟩ =
      .ok ⟨[], off + m + 2 + n⟩ BinOp.Or) ∧
    (∀ m n off, bin_op_2 ⟨List.replicate m ' ' ++ (['<','='] ++ List.replicate n ' '), off⟩ =
      .ok ⟨[], off + m + 2 + n⟩ BinOp.Lte) ∧
    (∀ m n off, bin_op_2 ⟨List.replicate m ' ' ++ (['>','='] ++ List.replicate n ' '), off⟩ =
      .ok ⟨[], off + m + 2 + n⟩ BinOp.Gte) ∧
    (∀ m n off, bin_op_2 ⟨List.replicate m ' ' ++ (['<'] ++ List.replicate n ' '), off⟩ =
      .ok ⟨[], off + m + 1 + n⟩ BinOp.Lt) ∧
    (∀ m n off, bin_op_2 ⟨List.replicate m ' ' ++ (['>'] ++ List.replicate n ' '), off⟩ =
      .ok ⟨[], off + m + 1 + n⟩ BinOp.Gt) ∧
    (∀ m n off, bin_op_2 ⟨List.replicate m ' ' ++ (['=','='] ++ List.replicate n ' '), off⟩ =
      .ok ⟨[], off + m + 2 + n⟩ BinOp.Eq) ∧
    (∀ m n off, bin_op_2 ⟨List.replicate m ' ' ++ (['!','='] ++ List.replicate n ' '), off⟩ =
      .ok ⟨[], off + m + 2 + n⟩ BinOp.Neq) ∧
    (∀ m n off, bin_op_3 ⟨List.replicate m ' ' ++ (['&'] ++ List.replicate n ' '), off⟩ =
      .ok ⟨[], off + m + 1 + n⟩ BinOp.BitAnd) ∧
    (∀ m n off, bin_op_3 ⟨List.replicate m ' ' ++ (['|'] ++ List.replicate n ' '), off⟩ =
      .ok ⟨[], off + m + 1 + n⟩ BinOp.BitOr) ∧
    (∀ m n off, bin_op_3 ⟨List.replicate m ' ' ++ (['^'] ++ List.replicate n ' '), off⟩ =
      .ok ⟨[], off + m + 1 + n⟩ BinOp.BitXor) ∧
    (∀ m n off, bin_op_3 ⟨List.replicate m ' ' ++ (['>','>'] ++ List.replicate n ' '), off⟩ =
      .ok ⟨[], off + m + 2 + n⟩ BinOp.Shr) ∧
    (∀ m n off, bin_op_3 ⟨List.replicate m ' ' ++ (['<','<'] ++ List.replicate n ' '), off⟩ =
      .ok ⟨[], off + m + 2 + n⟩ BinOp.Shl) ∧
    (∀ m n off, bin_op_4 ⟨List.replicate m ' ' ++ (['+'] ++ List.replicate n ' '), off⟩ =
      .ok ⟨[], off + m + 1 + n⟩ BinOp.Add) ∧
    (∀ m n off, bin_op_4 ⟨List.replicate m ' ' ++ (['-'] ++ List.replicate n ' '), off⟩ =
      .ok ⟨[], off + m + 1 + n⟩ BinOp.Sub) ∧
    (∀ m n off, bin_op_5 ⟨List.replicate m ' ' ++ (['*'] ++ List.replicate n ' '), off⟩ =
      .ok ⟨[], off + m + 1 + n⟩ BinOp.Mul) ∧
    (∀ m n off, bin_op_5 ⟨List.replicate m ' ' ++ (['/'] ++ List.replicate n ' '), off⟩ =
      .ok ⟨[], off + m + 1 + n⟩ BinOp.Div) ∧
    (∀ m n off, bin_op_5 ⟨List.replicate m ' ' ++ (['%'] ++ List.replicate n ' '), off⟩ =
      .ok ⟨[], off + m + 1 + n⟩ BinOp.Rem) :=
  ⟨fun m n off => tier_spaces bin_op_1_alt _ '&' ['&'] BinOp.And (by decide) inner_and m n off,
   fun m n off => tier_spaces bin_op_1_alt _ '|' ['|'] BinOp.Or (by decide) inner_or m n off,
   fun m n off => tier_spaces bin_op_2_alt _ '<' ['='] BinOp.Lte (by decide) inner_lte m n off,
   fun m n off => tier_spaces bin_op_2_alt _ '>' ['='] BinOp.Gte (by decide) inner_gte m n off,
   fun m n off => tier_spaces bin_op_2_alt _ '<' [] BinOp.Lt (by decide) inner_lt m n off,
   fun m n off => tier_spaces bin_op_2_alt _ '>' [] BinOp.Gt (by decide) inner_gt m n off,
   fun m n off => tier_spaces bin_op_2_alt _ '=' ['='] BinOp.Eq (by decide) inner_eq m n off,
   fun m n off => tier_spaces bin_op_2_alt _ '!' ['='] BinOp.Neq (by decide) inner_neq m n off,
   fun m n off => tier_spaces bin_op_3_alt _ '&' [] BinOp.BitAnd (by decide) inner_bitand m n off,
   fun m n off => tier_spaces bin_op_3_alt _ '|' [] BinOp.BitOr (by decide) inner_bitor m n off,
   fun m n off => tier_spaces bin_op_3_alt _ '^' [] BinOp.BitXor (by decide) inner_bitxor m n off,
   fun m n off => tier_spaces bin_op_3_alt _ '>' ['>'] BinOp.Shr (by decide) inner_shr m n off,
   fun m n off => tier_spaces bin_op_3_alt _ '<' ['<'] BinOp.Shl (by decide) inner_shl m n off,
   fun m n off => tier_spaces bin_op_4_alt _ '+' [] BinOp.Add (by decide) inner_add m n off,
   fun m n off => tier_spaces bin_op_4_alt _ '-' [] BinOp.Sub (by decide) inner_sub m n off,
   fun m n off => tier_spaces bin_op_5_alt _ '*' [] BinOp.Mul (by decide) inner_mul m n off,
   fun m n off => tier_spaces bin_op_5_alt _ '/' [] BinOp.Div (by decide) inner_div m n off,
   fun m n off => tier_spaces bin_op_5_alt _ '%' [] BinOp.Rem (by decide) inner_rem m n off⟩

lemma guard_nonconsuming (c : Char) (input : Span) :
    resume input (peekP (notP (charP c)) input) = input := by
  cases hc : charP c input <;> simp [peekP, notP, resume, hc]

/-- C2: disambiguation guards. -/
theorem claimC2 :
    bin_op_2 ⟨['<','<'], 0⟩ =
      .error ⟨0, ["Expected comparision operator (<=, >=, <, >, ==, !=)"]⟩ ∧
    bin_op_3 ⟨['<','<'], 0⟩ = .ok ⟨[], 2⟩ BinOp.Shl ∧
    bin_op_2 ⟨['>','>'], 0⟩ =
      .error ⟨0, ["Expected comparision operator (<=, >=, <, >, ==, !=)"]⟩ ∧
    bin_op_3 ⟨['>','>'], 0⟩ = .ok ⟨[], 2⟩ BinOp.Shr ∧
    bin_op_3 ⟨['&','&'], 0⟩ =
      .error ⟨0, ["Expected binary operator (&, |, ^, <<, >>)"]⟩ ∧
    bin_op_1 ⟨['&','&'], 0⟩ = .ok ⟨[], 2⟩ BinOp.And ∧
    bin_op_3 ⟨['|','|'], 0⟩ =
      .error ⟨0, ["Expected binary operator (&, |, ^, <<, >>)"]⟩ ∧
    bin_op_1 ⟨['|','|'], 0⟩ = .ok ⟨[], 2⟩ BinOp.Or ∧
    (∀ (c : Char) (input : Span),
      resume input (peekP (notP (charP c)) input) = input) :=
  ⟨by decide, by decide, by decide, by decide, by decide, by decide, by decide,
   by decide, guard_nonconsuming⟩

lemma bin_op_2_lte (off : Nat) :
    bin_op_2 ⟨['<','='], off⟩ = .ok ⟨[], off + 2⟩ BinOp.Lte := by
  have h := tier_spaces bin_op_2_alt
    "Expected comparision operator (<=, >=, <, >, ==, !=)" '<' ['=']
    BinOp.Lte (by decide) inner_lte 0 0 off
  simpa using h

lemma bin_op_2_gte (off : Nat) :
    bin_op_2 ⟨['>','='], off⟩ = .ok ⟨[], off + 2⟩ BinOp.Gte := by
  have h := tier_spaces bin_op_2_alt
    "Expected comparision operator (<=, >=, <, >, ==, !=)" '>' ['=']
    BinOp.Gte (by decide) inner_gte 0 0 off
  simpa using h

/-- C3: ordered-candidate (longest match) correctness. -/
theorem claimC3 :
    (∀ off, bin_op_2 ⟨['<','='], off⟩ = .ok ⟨[], off + 2⟩ BinOp.Lte) ∧
    (∀ off, bin_op_2 ⟨['<','='], off⟩ ≠ .ok ⟨['='], off + 1⟩ BinOp.Lt) ∧
    (∀ off, bin_op_2 ⟨['>','='], off⟩ = .ok ⟨[], off + 2⟩ BinOp.Gte) ∧
    (∀ off, bin_op_2 ⟨['>','='], off⟩ ≠ .ok ⟨['='], off + 1⟩ BinOp.Gt) := by
  refine ⟨bin_op_2_lte, fun off h => ?_, bin_op_2_gte, fun off h => ?_⟩
  · rw [bin_op_2_lte off] at h
    simp at h
  · rw [bin_op_2_gte off] at h
    simp at h

/-- C6: whitespace idempotence for tier 4. -/
theorem claimC6 :
    (∀ off, bin_op_4 ⟨[' ',' ','+',' ',' '], off⟩ = .ok ⟨[], off + 5⟩ BinOp.Add) ∧
    (∀ off, bin_op_4 ⟨['+'], off⟩ = .ok ⟨[], off + 1⟩ BinOp.Add) := by
  constructor
  · intro off
    have h := tier_spaces bin_op_4_alt "Expected binary operator (+, -)" '+' []
      BinOp.Add (by decide) inner_add 2 2 off
    have e : off + 2 + 1 + 2 = off + 5 := by omega
    simpa [List.replicate_succ, e] using h
  · intro off
    have h := tier_spaces bin_op_4_alt "Expected binary operator (+, -)" '+' []
      BinOp.Add (by decide) inner_add 0 0 off
    simpa using h

lemma nil_nomatch1 (off : Nat) : bin_op_1_alt ⟨[], off⟩ = .error ⟨off, []⟩ := by
  simp [bin_op_1_alt, altP, mapP, tag_nil_fail]

lemma nil_nomatch2 (off : Nat) : bin_op_2_alt ⟨[], off⟩ = .error ⟨off, []⟩ := by
  simp [bin_op_2_alt, altP, mapP, terminatedP, peekP, notP, tag_nil_fail, charP_nil]

lemma nil_nomatch3 (off : Nat) : bin_op_3_alt ⟨[], off⟩ = .error ⟨off, []⟩ := by
  simp [bin_op_3_alt, altP, mapP, terminatedP, peekP, notP, tag_nil_fail, charP_nil]

lemma nil_nomatch4 (off : Nat) : bin_op_4_alt ⟨[], off⟩ = .error ⟨off, []⟩ := by
  simp [bin_op_4_alt, altP, mapP, charP_nil]

lemma nil_nomatch5 (off : Nat) : bin_op_5_alt ⟨[], off⟩ = .error ⟨off, []⟩ := by
  simp [bin_op_5_alt, altP, mapP, charP_nil]

lemma space0_nil (off : Nat) : space0 ⟨[], off⟩ = .ok ⟨[], off⟩ [] := by
  simp [space0]

/-- A failing candidate list propagates through the whitespace envelope and the
context wrapper as an ordinary labeled failure. -/
lemma tier_nil (p : Span → IResult BinOp) (label : String) (off : Nat)
    (hp : p ⟨[], off⟩ = .error ⟨off, []⟩) :
    surrounded (with_context label (log_success p (fun _ _ => ()))) space0
        ⟨[], off⟩ = .error ⟨off, [label]⟩ := by
  simp [surrounded, with_context, log_success, log_obs, space0_nil, hp]

/-- C10: totality on empty input. -/
theorem claimC10 :
    (∀ off, bin_op_1 ⟨[], off⟩ =
      .error ⟨off, ["Expected logical operator (&&, ||)"]⟩) ∧
    (∀ off, bin_op_2 ⟨[], off⟩ =
      .error ⟨off, ["Expected comparision operator (<=, >=, <, >, ==, !=)"]⟩) ∧
    (∀ off, bin_op_3 ⟨[], off⟩ =
      .error ⟨off, ["Expected binary operator (&, |, ^, <<, >>)"]⟩) ∧
    (∀ off, bin_op_4 ⟨[], off⟩ =
      .error ⟨off, ["Expected binary operator (+, -)"]⟩) ∧
    (∀ off, bin_op_5 ⟨[], off⟩ =
      .error ⟨off, ["Expected binary operator (*, /, %)"]⟩) :=
  ⟨fun off => tier_nil _ _ off (nil_nomatch1 off),
   fun off => tier_nil _ _ off (nil_nomatch2 off),
   fun off => tier_nil _ _ off (nil_nomatch3 off),
   fun off => tier_nil _ _ off (nil_nomatch4 off),
   fun off => tier_nil _ _ off (nil_nomatch5 off)⟩

lemma alt_recover (p q : Span → IResult BinOp) (input : Span) (e : ParseError)
    (h : p input = .error e) :
    altP [p, q] input = q input ∧ resume input (p input) = input := by
  constructor
  · simp [altP, h]
  · simp [resume, h]

/-- C4: non-consumption on failure. -/
theorem claimC4 :
    (∀ (input : Span) (q : Span → IResult BinOp) (e : ParseError),
      bin_op_1 input = .error e →
        altP [bin_op_1, q] input = q input ∧
        resume input (bin_op_1 input) = input) ∧
    (∀ (input : Span) (q : Span → IResult BinOp) (e : ParseError),
      bin_op_2 input = .error e →
        altP [bin_op_2, q] input = q input ∧
        resume input (bin_op_2 input) = input) ∧
    (∀ (input : Span) (q : Span → IResult BinOp) (e : ParseError),
      bin_op_3 input = .error e →
        altP [bin_op_3, q] input = q input ∧
        resume input (bin_op_3 input) = input) ∧
    (∀ (input : Span) (q : Span → IResult BinOp) (e : ParseError),
      bin_op_4 input = .error e →
        altP [bin_op_4, q] input = q input ∧
        resume input (bin_op_4 input) = input) ∧
    (∀ (input : Span) (q : Span → IResult BinOp) (e : ParseError),
      bin_op_5 input = .error e →
        altP [bin_op_5, q] input = q input ∧
        resume input (bin_op_5 input) = input) :=
  ⟨fun _ q e h => alt_recover _ q _ e h,
   fun _ q e h => alt_recover _ q _ e h,
   fun _ q e h => alt_recover _ q _ e h,
   fun _ q e h => alt_recover _ q _ e h,
   fun _ q e h => alt_recover _ q _ e h⟩

/-- C4 witness: the non-consumption properties at the concrete failing input
`"?"`. -/
theorem claimC4_witness :
    (altP [bin_op_1, bin_op_5] ⟨['?'], 0⟩ = bin_op_5 ⟨['?'], 0⟩ ∧
      resume ⟨['?'], 0⟩ (bin_op_1 ⟨['?'], 0⟩) = ⟨['?'], 0⟩) ∧
    (altP [bin_op_2, bin_op_5] ⟨['?'], 0⟩ = bin_op_5 ⟨['?'], 0⟩ ∧
      resume ⟨['?'], 0⟩ (bin_op_2 ⟨['?'], 0⟩) = ⟨['?'], 0⟩) ∧
    (altP [bin_op_3, bin_op_5] ⟨['?'], 0⟩ = bin_op_5 ⟨['?'], 0⟩ ∧
      resume ⟨['?'], 0⟩ (bin_op_3 ⟨['?'], 0⟩) = ⟨['?'], 0⟩) ∧
    (altP [bin_op_4, bin_op_5] ⟨['?'], 0⟩ = bin_op_5 ⟨['?'], 0⟩ ∧
      resume ⟨['?'], 0⟩ (bin_op_4 ⟨['?'], 0⟩) = ⟨['?'], 0⟩) ∧
    (altP [bin_op_5, bin_op_1] ⟨['?'], 0⟩ = bin_op_1 ⟨['?'], 0⟩ ∧
      resume ⟨['?'], 0⟩ (bin_op_5 ⟨['?'], 0⟩) = ⟨['?'], 0⟩) :=
  ⟨claimC4.1 ⟨['?'], 0⟩ bin_op_5
      ⟨0, ["Expected logical operator (&&, ||)"]⟩ (by decide),
   claimC4.2.1 ⟨['?'], 0⟩ bin_op_5
      ⟨0, ["Expected comparision operator (<=, >=, <, >, ==, !=)"]⟩ (by decide),
   claimC4.2.2.1 ⟨['?'], 0⟩ bin_op_5
      ⟨0, ["Expected binary operator (&, |, ^, <<, >>)"]⟩ (by decide),
   claimC4.2.2.2.1 ⟨['?'], 0⟩ bin_op_5
      ⟨0, ["Expected binary operator (+, -)"]⟩ (by decide),
   claimC4.2.2.2.2 ⟨['?'], 0⟩ bin_op_1
      ⟨0, ["Expected binary operator (*, /, %)"]⟩ (by decide)⟩

lemma tier_nomatch (p : Span → IResult BinOp) (label : String) (c : Char)
    (rest : List Char) (m off : Nat) (hc : isHSpace c = false)
    (hp : p ⟨c :: rest, off + m⟩ = .error ⟨off + m, []⟩) :
    surrounded (with_context label (log_success p (fun _ _ => ()))) space0
        ⟨List.replicate m ' ' ++ (c :: rest), off⟩ =
      .error ⟨off + m, [label]⟩ := by
  have h0 := space0_rep_append m off (c :: rest) (by simpa [startsHSpace] using hc)
  simp [surrounded, with_context, log_success, log_obs, h0, hp]

lemma nomatch1 (c : Char) (rest : List Char) (q : Nat)
    (h1 : c ≠ '&') (h2 : c ≠ '|') :
    bin_op_1_alt ⟨c :: rest, q⟩ = .error ⟨q, []⟩ := by
  have a1 := tag_cons_fail '&' ['&'] c rest q h1
  have a2 := tag_cons_fail '|' ['|'] c rest q h2
  simp [bin_op_1_alt, altP, mapP, a1, a2]

lemma nomatch2 (c : Char) (rest : List Char) (q : Nat)
    (h1 : c ≠ '<') (h2 : c ≠ '>') (h3 : c ≠ '=') (h4 : c ≠ '!') :
    bin_op_2_alt ⟨c :: rest, q⟩ = .error ⟨q, []⟩ := by
  have a1 := tag_cons_fail '<' ['='] c rest q h1
  have a2 := tag_cons_fail '>' ['='] c rest q h2
  have a3 := charP_cons_fail '<' c rest q h1
  have a4 := charP_cons_fail '>' c rest q h2
  have a5 := tag_cons_fail '=' ['='] c rest q h3
  have a6 := tag_cons_fail '!' ['='] c rest q h4
  simp [bin_op_2_alt, altP, mapP, terminatedP, peekP, notP, a1, a2, a3, a4, a5, a6]

lemma nomatch3 (c : Char) (rest : List Char) (q : Nat)
    (h1 : c ≠ '&') (h2 : c ≠ '|') (h3 : c ≠ '^') (h4 : c ≠ '>') (h5 : c ≠ '<') :
    bin_op_3_alt ⟨c :: rest, q⟩ = .error ⟨q, []⟩ := by
  have a1 := charP_cons_fail '&' c rest q h1
  have a2 := charP_cons_fail '|' c rest q h2
  have a3 := charP_cons_fail '^' c rest q h3
  have a4 := tag_cons_fail '>' ['>'] c rest q h4
  have a5 := tag_cons_fail '<' ['<'] c rest q h5
  simp [bin_op_3_alt, altP, mapP, terminatedP, peekP, notP, a1, a2, a3, a4, a5]

lemma nomatch4 (c : Char) (rest : List Char) (q : Nat)
    (h1 : c ≠ '+') (h2 : c ≠ '-') :
    bin_op_4_alt ⟨c :: rest, q⟩ = .error ⟨q, []⟩ := by
  have a1 := charP_cons_fail '+' c rest q h1
  have a2 := charP_cons_fail '-' c rest q h2
  simp [bin_op_4_alt, altP, mapP, a1, a2]

lemma nomatch5 (c : Char) (rest : List Char) (q : Nat)
    (h1 : c ≠ '*') (h2 : c ≠ '/') (h3 : c ≠ '%') :
    bin_op_5_alt ⟨c :: rest, q⟩ = .error ⟨q, []⟩ := by
  have a1 := charP_cons_fail '*' c rest q h1
  have a2 := charP_cons_fail '/' c rest q h2
  have a3 := charP_cons_fail '%' c rest q h3
  simp [bin_op_5_alt, altP, mapP, a1, a2, a3]

/-- C5 counterexample: the tier-2 static label in the code is
`"Expected comparision operator (<=, >=, <, >, ==, !=)"`, which differs from
the label the claim states. -/
theorem claimC5_counterexample :
    bin_op_2 ⟨['x'], 0⟩ =
      .error ⟨0, ["Expected comparision operator (<=, >=, <, >, ==, !=)"]⟩ ∧
    "Expected comparision operator (<=, >=, <, >, ==, !=)" ≠
      "expected comparison operator (<=, >=, <, >, ==, !=)" :=
  ⟨by decide, by decide⟩

/-- C5 (amended): no-match failures are positioned at the first non-whitespace
character and carry the tier's actual static label. -/
theorem claimC5 :
    (∀ (m off : Nat) (c : Char) (rest : List Char), isHSpace c = false →
      c ∉ ['&', '|'] →
      bin_op_1 ⟨List.replicate m ' ' ++ (c :: rest), off⟩ =
        .error ⟨off + m, ["Expected logical operator (&&, ||)"]⟩) ∧
    (∀ (m off : Nat) (c : Char) (rest : List Char), isHSpace c = false →
      c ∉ ['<', '>', '=', '!'] →
      bin_op_2 ⟨List.replicate m ' ' ++ (c :: rest), off⟩ =
        .error ⟨off + m,
          ["Expected comparision operator (<=, >=, <, >, ==, !=)"]⟩) ∧
    (∀ (m off : Nat) (c : Char) (rest : List Char), isHSpace c = false →
      c ∉ ['&', '|', '^', '>', '<'] →
      bin_op_3 ⟨List.replicate m ' ' ++ (c :: rest), off⟩ =
        .error ⟨off + m, ["Expected binary operator (&, |, ^, <<, >>)"]⟩) ∧
    (∀ (m off : Nat) (c : Char) (rest : List Char), isHSpace c = false →
      c ∉ ['+', '-'] →
      bin_op_4 ⟨List.replicate m ' ' ++ (c :: rest), off⟩ =
        .error ⟨off + m, ["Expected binary operator (+, -)"]⟩) ∧
    (∀ (m off : Nat) (c : Char) (rest : List Char), isHSpace c = false →
      c ∉ ['*', '/', '%'] →
      bin_op_5 ⟨List.replicate m ' ' ++ (c :: rest), off⟩ =
        .error ⟨off + m, ["Expected binary operator (*, /, %)"]⟩) := by
  refine ⟨?_, ?_, ?_, ?_, ?_⟩ <;> intro m off c rest hc hn <;> simp at hn
  · exact tier_nomatch _ _ c rest m off hc (nomatch1 c rest (off + m) hn.1 hn.2)
  · exact tier_nomatch _ _ c rest m off hc
      (nomatch2 c rest (off + m) hn.1 hn.2.1 hn.2.2.1 hn.2.2.2)
  · exact tier_nomatch _ _ c rest m off hc
      (nomatch3 c rest (off + m) hn.1 hn.2.1 hn.2.2.1 hn.2.2.2.1 hn.2.2.2.2)
  · exact tier_nomatch _ _ c rest m off hc (nomatch4 c rest (off + m) hn.1 hn.2)
  · exact tier_nomatch _ _ c rest m off hc
      (nomatch5 c rest (off + m) hn.1 hn.2.1 hn.2.2)

/-- C5 witness: the amended claim at the concrete input `" x("` for every
tier. -/
theorem claimC5_witness :
    bin_op_1 ⟨List.replicate 1 ' ' ++ ('x' :: ['(']), 3⟩ =
      .error ⟨3 + 1, ["Expected logical operator (&&, ||)"]⟩ ∧
    bin_op_2 ⟨List.replicate 1 ' ' ++ ('x' :: ['(']), 3⟩ =
      .error ⟨3 + 1, ["Expected comparision operator (<=, >=, <, >, ==, !=)"]⟩ ∧
    bin_op_3 ⟨List.replicate 1 ' ' ++ ('x' :: ['(']), 3⟩ =
      .error ⟨3 + 1, ["Expected binary operator (&, |, ^, <<, >>)"]⟩ ∧
    bin_op_4 ⟨List.replicate 1 ' ' ++ ('x' :: ['(']), 3⟩ =
      .error ⟨3 + 1, ["Expected binary operator (+, -)"]⟩ ∧
    bin_op_5 ⟨List.replicate 1 ' ' ++ ('x' :: ['(']), 3⟩ =
      .error ⟨3 + 1, ["Expected binary operator (*, /, %)"]⟩ :=
  ⟨claimC5.1 1 3 'x' ['('] (by decide) (by decide),
   claimC5.2.1 1 3 'x' ['('] (by decide) (by decide),
   claimC5.2.2.1 1 3 'x' ['('] (by decide) (by decide),
   claimC5.2.2.2.1 1 3 'x' ['('] (by decide) (by decide),
   claimC5.2.2.2.2 1 3 'x' ['('] (by decide) (by decide)⟩

/-- Running the success observer does not change the parse result. -/
lemma log_success_id (p : Span → IResult α) (f : α → Nat → β) (input : Span) :
    log_success p f input = p input := by
  cases hp : p input <;> simp [log_success, log_obs, hp]

/-- C7: the observer is invoked exactly on success, and omitting it leaves
every tier recognizer's result unchanged. -/
theorem claimC7 :
    (∀ input, bin_op_1 input = bin_op_1_noobs input) ∧
    (∀ input, bin_op_2 input = bin_op_2_noobs input) ∧
    (∀ input, bin_op_3 input = bin_op_3_noobs input) ∧
    (∀ input, bin_op_4 input = bin_op_4_noobs input) ∧
    (∀ input, bin_op_5 input = bin_op_5_noobs input) ∧
    (∀ (α β : Type) (p : Span → IResult α) (f : α → Nat → β) (input : Span),
      ((log_obs p f input).2).isSome = isOkB (p input)) := by
  refine ⟨?_, ?_, ?_, ?_, ?_, ?_⟩
  · intro input
    simp [bin_op_1, bin_op_1_noobs, funext (log_success_id bin_op_1_alt _)]
  · intro input
    simp [bin_op_2, bin_op_2_noobs, funext (log_success_id bin_op_2_alt _)]
  · intro input
    simp [bin_op_3, bin_op_3_noobs, funext (log_success_id bin_op_3_alt _)]
  · intro input
    simp [bin_op_4, bin_op_4_noobs, funext (log_success_id bin_op_4_alt _)]
  · intro input
    simp [bin_op_5, bin_op_5_noobs, funext (log_success_id bin_op_5_alt _)]
  · intro α β p f input
    cases hp : p input <;> simp [log_obs, isOkB, hp]

lemma mapP_const_ok {p : Span → IResult γ} {x : α} {input : Span} {r : Span}
    {v : α} (h : mapP p (fun _ => x) input = .ok r v) : v = x := by
  unfold mapP at h
  cases hp : p input with
  | ok rem w => rw [hp] at h; injection h with h1 h2; exact h2.symm
  | error e => rw [hp] at h; cases h

lemma altP_ok_mem {ps : List (Span → IResult α)} {input r v}
    (h : altP ps input = .ok r v) : ∃ p ∈ ps, p input = .ok r v := by
  induction ps with
  | nil => simp [altP] at h
  | cons p ps ih =>
    cases ps with
    | nil => exact ⟨p, by simp, by simpa [altP] using h⟩
    | cons q qs =>
      simp only [altP] at h
      cases hp : p input with
      | ok rem w =>
        rw [hp] at h
        exact ⟨p, by simp, by rw [hp]; exact h⟩
      | error e =>
        rw [hp] at h
        obtain ⟨p2, hmem, h2⟩ := ih h
        exact ⟨p2, List.mem_cons_of_mem _ hmem, h2⟩

lemma with_context_ok {label : String} {p : Span → IResult α} {input r v}
    (h : with_context label p input = .ok r v) : p input = .ok r v := by
  unfold with_context at h
  cases hp : p input with
  | ok rem w =>
    simp only [hp] at h
    exact h
  | error e => simp [hp] at h

lemma surrounded_space0_ok {content : Span → IResult α} {input r v}
    (h : surrounded content space0 input = .ok r v) :
    ∃ s1 s2, content s1 = .ok s2 v := by
  unfold surrounded at h
  simp only [space0] at h
  cases hc : content ⟨input.text.dropWhile isHSpace,
      input.offset + (input.text.takeWhile isHSpace).length⟩ with
  | ok rem2 w =>
    simp only [hc] at h
    refine ⟨⟨input.text.dropWhile isHSpace,
      input.offset + (input.text.takeWhile isHSpace).length⟩, rem2, ?_⟩
    rw [hc]
    injection h with h1 h2
    rw [h2]
  | error e => simp [hc] at h

lemma tier_sound {p : Span → IResult BinOp} {label : String}
    {f : BinOp → Nat → Unit} {input r : Span} {op : BinOp}
    (h : surrounded (with_context label (log_success p f)) space0 input =
      .ok r op) :
    ∃ s1 s2, p s1 = .ok s2 op := by
  obtain ⟨s1, s2, h1⟩ := surrounded_space0_ok h
  have h2 := with_context_ok h1
  rw [log_success_id] at h2
  exact ⟨s1, s2, h2⟩

lemma bin_op_1_tags {input r : Span} {op : BinOp}
    (h : bin_op_1 input = .ok r op) : op ∈ tier1 := by
  obtain ⟨s1, s2, h2⟩ := tier_sound h
  rw [bin_op_1_alt] at h2
  obtain ⟨p2, hmem, hp2⟩ := altP_ok_mem h2
  simp only [List.mem_cons, List.not_mem_nil, or_false] at hmem
  rcases hmem with h3 | h3 <;> subst h3 <;> simp [tier1, mapP_const_ok hp2]

lemma bin_op_2_tags {input r : Span} {op : BinOp}
    (h : bin_op_2 input = .ok r op) : op ∈ tier2 := by
  obtain ⟨s1, s2, h2⟩ := tier_sound h
  rw [bin_op_2_alt] at h2
  obtain ⟨p2, hmem, hp2⟩ := altP_ok_mem h2
  simp only [List.mem_cons, List.not_mem_nil, or_false] at hmem
  rcases hmem with h3 | h3 | h3 | h3 | h3 | h3 <;> subst h3 <;>
    simp [tier2, mapP_const_ok hp2]

lemma bin_op_3_tags {input r : Span} {op : BinOp}
    (h : bin_op_3 input = .ok r op) : op ∈ tier3 := by
  obtain ⟨s1, s2, h2⟩ := tier_sound h
  rw [bin_op_3_alt] at h2
  obtain ⟨p2, hmem, hp2⟩ := altP_ok_mem h2
  simp only [List.mem_cons, List.not_mem_nil, or_false] at hmem
  rcases hmem with h3 | h3 | h3 | h3 | h3 <;> subst h3 <;>
    simp [tier3, mapP_const_ok hp2]

lemma bin_op_4_tags {input r : Span} {op : BinOp}
    (h : bin_op_4 input = .ok r op) : op ∈ tier4 := by
  obtain ⟨s1, s2, h2⟩ := tier_sound h
  rw [bin_op_4_alt] at h2
  obtain ⟨p2, hmem, hp2⟩ := altP_ok_mem h2
  simp only [List.mem_cons, List.not_mem_nil, or_false] at hmem
  rcases hmem with h3 | h3 <;> subst h3 <;> simp [tier4, mapP_const_ok hp2]

lemma bin_op_5_tags {input r : Span} {op : BinOp}
    (h : bin_op_5 input = .ok r op) : op ∈ tier5 := by
  obtain ⟨s1, s2, h2⟩ := tier_sound h
  rw [bin_op_5_alt] at h2
  obtain ⟨p2, hmem, hp2⟩ := altP_ok_mem h2
  simp only [List.mem_cons, List.not_mem_nil, or_false] at hmem
  rcases hmem with h3 | h3 | h3 <;> subst h3 <;> simp [tier5, mapP_const_ok hp2]

/-- C8: tier exclusivity (soundness). -/
theorem claimC8 :
    (∀ (input r : Span) (op : BinOp),
      bin_op_1 input = .ok r op → op ∈ tier1) ∧
    (∀ (input r : Span) (op : BinOp),
      bin_op_2 input = .ok r op → op ∈ tier2) ∧
    (∀ (input r : Span) (op : BinOp),
      bin_op_3 input = .ok r op → op ∈ tier3) ∧
    (∀ (input r : Span) (op : BinOp),
      bin_op_4 input = .ok r op → op ∈ tier4) ∧
    (∀ (input r : Span) (op : BinOp),
      bin_op_5 input = .ok r op → op ∈ tier5) :=
  ⟨fun _ _ _ h => bin_op_1_tags h, fun _ _ _ h => bin_op_2_tags h,
   fun _ _ _ h => bin_op_3_tags h, fun _ _ _ h => bin_op_4_tags h,
   fun _ _ _ h => bin_op_5_tags h⟩

/-- C8 witness: tier exclusivity at one concrete successful parse per tier. -/
theorem claimC8_witness :
    BinOp.And ∈ tier1 ∧ BinOp.Lte ∈ tier2 ∧ BinOp.Shl ∈ tier3 ∧
    BinOp.Add ∈ tier4 ∧ BinOp.Rem ∈ tier5 :=
  ⟨claimC8.1 ⟨['&','&'], 0⟩ ⟨[], 2⟩ BinOp.And (by decide),
   claimC8.2.1 ⟨['<','='], 0⟩ ⟨[], 2⟩ BinOp.Lte (by decide),
   claimC8.2.2.1 ⟨['<','<'], 0⟩ ⟨[], 2⟩ BinOp.Shl (by decide),
   claimC8.2.2.2.1 ⟨['+'], 0⟩ ⟨[], 1⟩ BinOp.Add (by decide),
   claimC8.2.2.2.2 ⟨['%'], 0⟩ ⟨[], 1⟩ BinOp.Rem (by decide)⟩

/-- C9 counterexample: the candidate tables of the tier recognizers form five
tiers, not six. -/
theorem claimC9_counterexample : tiers.length = 5 ∧ ¬ tiers.length = 6 := by
  decide

/-- C9 (amended): the operator tags form a closed set partitioned into five
disjoint precedence tiers — one tier recognizer per level — and every operator
tag belongs to exactly one of the five tiers. -/
theorem claimC9 :
    tiers.length = 5 ∧
    (∀ op : BinOp, tiers.countP (fun t => decide (op ∈ t)) = 1) := by
  decide

/-- C3 witness: the ordered-candidate properties at offset 7. -/
theorem claimC3_witness :
    bin_op_2 ⟨['<','='], 7⟩ = .ok ⟨[], 7 + 2⟩ BinOp.Lte ∧
    bin_op_2 ⟨['<','='], 7⟩ ≠ .ok ⟨['='], 7 + 1⟩ BinOp.Lt ∧
    bin_op_2 ⟨['>','='], 7⟩ = .ok ⟨[], 7 + 2⟩ BinOp.Gte ∧
    bin_op_2 ⟨['>','='], 7⟩ ≠ .ok ⟨['='], 7 + 1⟩ BinOp.Gt :=
  ⟨claimC3.1 7, claimC3.2.1 7, claimC3.2.2.1 7, claimC3.2.2.2 7⟩
